import Mathlib

/-!
Verification development for the rusterize repository.

Part 1 embeds the Python binding layer, the function `rusterize` of
`src/python/rusterize/__init__.py`: data-source dispatch, argument
validation in source order, grid-spec assembly, and the local-variable
flow of the function body (a local read before assignment raises
UnboundLocalError, which the embedding models explicitly).

Part 2 embeds the scan converter of the native core, which is not under
`src/`; those definitions are modelled from the spec and say so in their
doc comments.
-/

/-- PyNum models the Python numeric values that flow through the binding
layer: integers, finite floats held as exact rationals, the float nan, and
signed float infinities (the Bool is true for the positive infinity). -/
inductive PyNum where
  | int : Int → PyNum
  | float : ℚ → PyNum
  | nan : PyNum
  | inf : Bool → PyNum
deriving DecidableEq

/-- Python truthiness of a number: zero is falsy, every other value truthy
(nan and the infinities are truthy). -/
def PyNum.truthy : PyNum → Bool
  | .int n => n != 0
  | .float q => q != 0
  | .nan => true
  | .inf _ => true

/-- Truth value of the Python comparison `v <= 0`; nan compares false. -/
def PyNum.le0 : PyNum → Bool
  | .int n => decide (n ≤ 0)
  | .float q => decide (q ≤ 0)
  | .nan => false
  | .inf pos => !pos

/-- Truth value of the Python comparison `v == 0`; nan compares false. -/
def PyNum.eq0 : PyNum → Bool
  | .int n => n == 0
  | .float q => q == 0
  | .nan => false
  | .inf _ => false

/-- Truth value of the Python check `isinstance(v, int)`. -/
def PyNum.isIntLike : PyNum → Bool
  | .int _ => true
  | _ => false

/-- The positive float infinity, the value of `np.inf`. -/
def pInf : PyNum := PyNum.inf true

/-- GeoDF abstracts a geopandas GeoDataFrame as the binding layer reads it:
row count, the epsg of its CRS when set (`data.crs.to_epsg()`), its
`total_bounds` (always four values), and its non-geometry column names. -/
structure GeoDF where
  nrows : Nat
  crsEpsg : Option Int
  totalBounds : List PyNum
  columns : List String
  tb4 : totalBounds.length = 4

/-- PolarsDF abstracts a polars DataFrame with a geometry column: the SRID
of the geometry of each row in order, the `st.total_bounds()` of the
geometry column, and the names of the other columns. -/
structure PolarsDF where
  srids : List Int
  totalBounds : List PyNum
  columns : List String
  tb4 : totalBounds.length = 4

/-- InputData is the `data` argument: a raw list or numpy array of
geometries (never inspected by the binding layer), a geopandas frame, a
polars frame, or a value of any other type. -/
inductive InputData where
  | raw : InputData
  | geopandas : GeoDF → InputData
  | polars : PolarsDF → InputData
  | other : InputData

/-- LikeGrid holds what the binding extracts from a valid `like` template:
`(affine.a, abs(affine.e))`, the squeezed shape, and `rio.bounds()`. -/
structure LikeGrid where
  xres : PyNum
  yres : PyNum
  nrows : Nat
  ncols : Nat
  bounds : List PyNum
  b4 : bounds.length = 4

/-- LikeArg is the `like` argument when not None: an object that is not an
xarray DataArray or Dataset, one without the rio accessor, one whose rio
transform raises, or a valid georeferenced template. -/
inductive LikeArg where
  | notXarray : LikeArg
  | noRio : LikeArg
  | badSpatial : LikeArg
  | valid : LikeGrid → LikeArg

/-- PyErr names every exception the binding layer can raise, one
constructor per raise site of `src/python/rusterize/__init__.py`:
`badDataType` the TypeError of line 107; `emptyGdf` the ValueError
"GeoDataFrame is empty." of lines 100 and 104; `conflictFieldBurn` the
ValueError of line 149; `badEncoding` the ValueError of line 152;
`likeTypeErr` the TypeError of line 166; `likeConflict` the ValueError of
line 169; `likeNoRio` and `likeNoSpatial` the AttributeErrors of lines 172
and 180; `noSpatialInfo` the ValueError "One of `res`, `out_shape`, or
`extent` must be provided." of line 183; `extentNeedsResOrShape` the
ValueError of line 187; `invalidExtent`, `invalidRes`, `invalidShape` the
ValueErrors of lines 190, 197, 203; `keyErrGpd` and `keyErrPolars` the
KeyErrors of lines 226 and 245; `polarsItemErr` a failure of `.item()` on
an empty frame; `unboundLocalEpsg` and `unboundLocalOther` the
UnboundLocalError raised when a local that was never assigned on the path
taken is read. -/
inductive PyErr where
  | badDataType
  | emptyGdf
  | conflictFieldBurn
  | badEncoding
  | likeTypeErr
  | likeConflict
  | likeNoRio
  | likeNoSpatial
  | noSpatialInfo
  | extentNeedsResOrShape
  | invalidExtent
  | invalidRes
  | invalidShape
  | keyErrGpd
  | keyErrPolars
  | polarsItemErr
  | unboundLocalEpsg
  | unboundLocalOther
deriving DecidableEq

/-- GeomSrc records which geometry source is handed to the native call. -/
inductive GeomSrc where
  | gdf : GeomSrc
  | plSeries : GeomSrc
  | rawList : GeomSrc
deriving DecidableEq

/-- Args mirrors the parameters of `rusterize` with their defaults. The
Python name `fun` is a Lean keyword, so it appears here as `fn`, and `by`
as `byCol`. -/
structure Args where
  data : InputData
  like : Option LikeArg := none
  res : Option (List PyNum) := none
  out_shape : Option (List PyNum) := none
  extent : Option (List PyNum) := none
  field : Option String := none
  byCol : Option String := none
  burn : Option PyNum := none
  fn : String := "last"
  background : Option PyNum := some PyNum.nan
  encoding : String := "xarray"
  all_touched : Bool := false
  tap : Bool := false
  dtype : String := "float64"

/-- RawRasterInfo is the grid-spec dictionary assembled at lines 255-267
and passed to the native engine. -/
structure RawRasterInfo where
  nrows : PyNum
  ncols : PyNum
  xmin : PyNum
  ymin : PyNum
  xmax : PyNum
  ymax : PyNum
  xres : PyNum
  yres : PyNum
  with_user_extent : Bool
  tap : Bool
  epsg : Option Int
deriving DecidableEq

/-- CallResult is the full argument tuple of the `_rusterize` native call
at lines 269-281; `df` holds the column names of the extracted frame. -/
structure CallResult where
  info : RawRasterInfo
  fn : String
  df : Option (List String)
  field : Option String
  byCol : Option String
  burn : Option PyNum
  background : Option PyNum
  all_touched : Bool
  encoding : String
  dtype : String
  geoms : GeomSrc
deriving DecidableEq

/-- Python truthiness of an optional string: None and the empty string are
falsy. -/
def truthyStr : Option String → Bool
  | none => false
  | some s => s != ""

/-- Python truthiness of an optional number. -/
def truthyNum : Option PyNum → Bool
  | none => false
  | some v => v.truthy

/-- Python truthiness of an optional sequence: None and an empty tuple or
list are falsy. -/
def truthyL : Option (List PyNum) → Bool
  | none => false
  | some l => !l.isEmpty

/-- Dispatch on the type of `data` (lines 95-107): raw inputs pass, empty
dataframes raise ValueError "GeoDataFrame is empty.", unknown types raise
TypeError. -/
def checkData : InputData → Except PyErr Unit
  | .raw => .ok ()
  | .geopandas g => if g.nrows = 0 then .error PyErr.emptyGdf else .ok ()
  | .polars p => if p.srids.isEmpty then .error PyErr.emptyGdf else .ok ()
  | .other => .error PyErr.badDataType

/-- Membership test of line 151: encoding must be xarray, numpy or
sparse. -/
def encodingOk (s : String) : Bool :=
  s == "xarray" || s == "numpy" || s == "sparse"

/-- Lines 207-208: the sorted deduplicated column names of interest, the
columns among field and by that are truthy and differ from geometry. -/
def colsOf (field byCol : Option String) : List String :=
  (([field, byCol].filterMap id).filter
    (fun c => c != "" && c != "geometry")).dedup

/-- Lines 185-193, the `if extent:` block: with a truthy extent, first the
check that res or out_shape accompanies it, then the shape check (four
values, not all zero); on success the extent becomes the bounds with
with_user_extent true. A falsy extent leaves the default bounds, four
times np.inf. -/
def extentStep (res out_shape extent : Option (List PyNum)) :
    Except PyErr (List PyNum × Bool) :=
  match extent with
  | some l =>
    if l.isEmpty then .ok ([pInf, pInf, pInf, pInf], false)
    else if !truthyL res && !truthyL out_shape then
      .error PyErr.extentNeedsResOrShape
    else if l.length != 4 || l.all PyNum.eq0 then .error PyErr.invalidExtent
    else .ok (l, true)
  | none => .ok ([pInf, pInf, pInf, pInf], false)

/-- Lines 195-199, the `if res:` block: a truthy res must be two positive
numbers; a falsy res leaves the default (0, 0). -/
def resStep (res : Option (List PyNum)) : Except PyErr (PyNum × PyNum) :=
  match res with
  | some l =>
    if l.isEmpty then .ok (PyNum.int 0, PyNum.int 0)
    else if l.length != 2 || l.any PyNum.le0 then .error PyErr.invalidRes
    else .ok (l.getD 0 (PyNum.int 0), l.getD 1 (PyNum.int 0))
  | none => .ok (PyNum.int 0, PyNum.int 0)

/-- Lines 201-205, the `if out_shape:` block: a truthy out_shape must be
two positive integers; a falsy one leaves the default (0, 0). -/
def shapeStep (out_shape : Option (List PyNum)) :
    Except PyErr (PyNum × PyNum) :=
  match out_shape with
  | some l =>
    if l.isEmpty then .ok (PyNum.int 0, PyNum.int 0)
    else if l.length != 2 || l.any PyNum.le0
        || l.any (fun s => !s.isIntLike) then
      .error PyErr.invalidShape
    else .ok (l.getD 0 (PyNum.int 0), l.getD 1 (PyNum.int 0))
  | none => .ok (PyNum.int 0, PyNum.int 0)

/-- Lines 212-252, the per-source block of the else branch: bounds from
the data when no user extent was given, the epsg (for polars, from the
SRID of the first geometry, zero meaning none), the extracted frame when
columns of interest exist (KeyError when one is missing), and the
geometry source. -/
def dataStep (data : InputData) (field byCol : Option String)
    (bounds0 : List PyNum) (withUser : Bool) :
    Except PyErr (List PyNum × Option Int × Option (List String) × GeomSrc) :=
  let cols := colsOf field byCol
  match data with
  | .geopandas g =>
    let bounds := if !withUser then g.totalBounds else bounds0
    let epsg := g.crsEpsg
    if cols.isEmpty then .ok (bounds, epsg, none, GeomSrc.gdf)
    else if cols.all (fun c => g.columns.contains c) then
      .ok (bounds, epsg, some cols, GeomSrc.gdf)
    else .error PyErr.keyErrGpd
  | .polars p =>
    let bounds := if !withUser then p.totalBounds else bounds0
    match p.srids.head? with
    | none => .error PyErr.polarsItemErr
    | some srid =>
      let epsg := if srid = 0 then none else some srid
      if cols.isEmpty then .ok (bounds, epsg, none, GeomSrc.plSeries)
      else if cols.all (fun c => p.columns.contains c) then
        .ok (bounds, epsg, some cols, GeomSrc.plSeries)
      else .error PyErr.keyErrPolars
  | .raw => .ok (bounds0, none, none, GeomSrc.rawList)
  | .other => .error PyErr.badDataType

/-- BodyLocals is the state of the local variables of the function body at
the point where raw_raster_info is assembled. A none in epsgLocal,
dfLocal or geomsLocal means that local was never assigned on the path
taken; reading it raises UnboundLocalError. -/
structure BodyLocals where
  resL : PyNum × PyNum
  shapeL : PyNum × PyNum
  boundsL : List PyNum
  withUserExtent : Bool
  epsgLocal : Option (Option Int)
  dfLocal : Option (Option (List String))
  geomsLocal : Option GeomSrc

/-- Lines 254-281: assemble the raw_raster_info dictionary, then the
native call. The dictionary reads the local epsg; the call reads the
locals geometries and df. Reading an unassigned local raises
UnboundLocalError, the dictionary first. -/
def mkCall (a : Args) (st : BodyLocals) : Except PyErr CallResult :=
  match st.epsgLocal with
  | none => .error PyErr.unboundLocalEpsg
  | some epsg =>
    let info : RawRasterInfo :=
      { nrows := st.shapeL.1, ncols := st.shapeL.2,
        xmin := st.boundsL.getD 0 (PyNum.int 0),
        ymin := st.boundsL.getD 1 (PyNum.int 0),
        xmax := st.boundsL.getD 2 (PyNum.int 0),
        ymax := st.boundsL.getD 3 (PyNum.int 0),
        xres := st.resL.1, yres := st.resL.2,
        with_user_extent := st.withUserExtent, tap := a.tap, epsg := epsg }
    match st.geomsLocal, st.dfLocal with
    | some geoms, some df =>
      .ok { info := info, fn := a.fn, df := df, field := a.field,
            byCol := a.byCol, burn := a.burn, background := a.background,
            all_touched := a.all_touched, encoding := a.encoding,
            dtype := a.dtype, geoms := geoms }
    | _, _ => .error PyErr.unboundLocalOther

/-- Lines 164-180, the `if like is not None:` block: the isinstance check,
the mutual-exclusion check against truthy res, out_shape and extent, the
rio accessor check, and the template extraction. On success the grid
locals hold the template values while the locals epsg, df and geometries
stay unassigned. -/
def likeStep (lk : LikeArg) (res os ext : Option (List PyNum)) :
    Except PyErr BodyLocals :=
  match lk with
  | .notXarray => .error PyErr.likeTypeErr
  | _ =>
    if truthyL res || truthyL os || truthyL ext then
      .error PyErr.likeConflict
    else
      match lk with
      | .noRio => .error PyErr.likeNoRio
      | .badSpatial => .error PyErr.likeNoSpatial
      | .valid g =>
        .ok { resL := (g.xres, g.yres),
              shapeL := (PyNum.int g.nrows, PyNum.int g.ncols),
              boundsL := g.bounds, withUserExtent := true,
              epsgLocal := none, dfLocal := none, geomsLocal := none }
      | .notXarray => .error PyErr.likeTypeErr

/-- Lines 159-281: the body after the early checks. On the like path the
grid comes from the template and the locals epsg, df and geometries are
never assigned; on the other path the grid comes from the user arguments
and the data, and all locals are assigned. -/
def buildCall (a : Args) : Except PyErr CallResult :=
  match a.like with
  | some lk =>
    match likeStep lk a.res a.out_shape a.extent with
    | .error e => .error e
    | .ok st => mkCall a st
  | none =>
    if !truthyL a.res && !truthyL a.out_shape && !truthyL a.extent then
      .error PyErr.noSpatialInfo
    else
      match extentStep a.res a.out_shape a.extent with
      | .error e => .error e
      | .ok (bounds0, withUser) =>
        match resStep a.res with
        | .error e => .error e
        | .ok resL =>
          match shapeStep a.out_shape with
          | .error e => .error e
          | .ok shapeL =>
            match dataStep a.data a.field a.byCol bounds0 withUser with
            | .error e => .error e
            | .ok (bounds, epsg, df, geoms) =>
              mkCall a
                { resL := resL, shapeL := shapeL, boundsL := bounds,
                  withUserExtent := withUser, epsgLocal := some epsg,
                  dfLocal := some df, geomsLocal := some geoms }

/-- The function `rusterize` of `src/python/rusterize/__init__.py`, in the
environment where all optional modules are installed: data dispatch and
emptiness check, then the field and burn conflict check of line 148, the
encoding check of line 151, then the body. The isinstance checks of lines
109-145 hold by construction of Args. -/
def rusterize (a : Args) : Except PyErr CallResult :=
  match checkData a.data with
  | .error e => .error e
  | .ok _ =>
    if truthyStr a.field && truthyNum a.burn then
      .error PyErr.conflictFieldBurn
    else if !encodingOk a.encoding then .error PyErr.badEncoding
    else buildCall a

/-! Concrete inputs used by counterexamples and witnesses. -/

/-- A nonempty geopandas frame with a value column, like the test frame of
`src/test/test_many.py`. -/
def gdfStd : GeoDF :=
  { nrows := 5, crsEpsg := some 4326,
    totalBounds := [PyNum.float (-180), PyNum.float (-70),
                    PyNum.float 160, PyNum.float 60],
    columns := ["value"], tb4 := rfl }

/-- An empty geopandas frame. -/
def gdfEmpty : GeoDF :=
  { nrows := 0, crsEpsg := none,
    totalBounds := [PyNum.nan, PyNum.nan, PyNum.nan, PyNum.nan],
    columns := ["value"], tb4 := rfl }

/-- A nonempty polars frame whose geometry column has SRIDs per row. -/
def plstStd : PolarsDF :=
  { srids := [4326, 3857, 0],
    totalBounds := [PyNum.float 0, PyNum.float 0,
                    PyNum.float 10, PyNum.float 10],
    columns := ["value"], tb4 := rfl }

/-- A valid georeferenced like template, ten by ten pixels of size one. -/
def likeGridStd : LikeGrid :=
  { xres := PyNum.float 1, yres := PyNum.float 1, nrows := 10, ncols := 10,
    bounds := [PyNum.float 0, PyNum.float 0, PyNum.float 10, PyNum.float 10],
    b4 := rfl }

/-- First projection of a successful call result onto its grid spec. -/
def resultInfo : Except PyErr CallResult → Option RawRasterInfo
  | .ok r => some r.info
  | .error _ => none

/-- Projection of a successful call result onto the epsg of its grid
spec. -/
def resultEpsg : Except PyErr CallResult → Option (Option Int)
  | .ok r => some r.info.epsg
  | .error _ => none

/-- A call that supplies only a valid like template, the success path of
lines 164-180. -/
def c2args : Args :=
  { data := InputData.geopandas gdfStd,
    like := some (LikeArg.valid likeGridStd) }

/-- C2: a call that supplies a valid like template and none of res,
out_shape, extent is meant to derive the grid from the template and
succeed; the code instead raises UnboundLocalError, because the locals
epsg, df and geometries are assigned only in the branch taken when like is
None (lines 209-252) yet epsg is read at line 266 when the grid spec is
assembled. -/
theorem C2_like_call_raises :
    c2args.like = some (LikeArg.valid likeGridStd) ∧
      rusterize c2args = Except.error PyErr.unboundLocalEpsg :=
  ⟨rfl, rfl⟩

/-- An empty geopandas source together with a user extent and res. -/
def c3args : Args :=
  { data := InputData.geopandas gdfEmpty,
    res := some [PyNum.int 1, PyNum.int 1],
    extent := some [PyNum.int 0, PyNum.int 0, PyNum.int 10, PyNum.int 10],
    encoding := "numpy" }

/-- C3 counterexample: the claim says a call on an empty geometry source
that supplies a user extent together with res does not fail on account of
emptiness; the code raises the ValueError "GeoDataFrame is empty." at line
100 before ever looking at the extent. -/
theorem C3_counterexample :
    c3args.extent.isSome = true ∧ truthyL c3args.res = true ∧
      rusterize c3args = Except.error PyErr.emptyGdf :=
  ⟨rfl, rfl, rfl⟩

/-- C3 amended: a call on an empty dataframe source always fails with the
emptiness error, whatever other arguments are supplied; the emptiness
check of lines 99-104 never consults the extent. -/
theorem C3_empty_always_fails (a : Args) (g : GeoDF) (p : PolarsDF)
    (h : a.data = InputData.geopandas g ∧ g.nrows = 0 ∨
         a.data = InputData.polars p ∧ p.srids = []) :
    rusterize a = Except.error PyErr.emptyGdf := by
  rcases h with ⟨hd, he⟩ | ⟨hd, he⟩ <;> simp [rusterize, checkData, hd, he]

/-- C3 amended witness: the amended statement evaluated on the concrete
empty input. -/
theorem C3_empty_always_fails_witness :
    rusterize c3args = Except.error PyErr.emptyGdf :=
  C3_empty_always_fails c3args gdfEmpty plstStd (Or.inl ⟨rfl, rfl⟩)

/-- A call setting field together with burn equal to zero. -/
def c4args : Args :=
  { data := InputData.geopandas gdfStd,
    res := some [PyNum.int 1, PyNum.int 1],
    field := some ("value"), burn := some (PyNum.int 0),
    encoding := "numpy" }

/-- C4 counterexample: the claim says every call with both field and burn
set fails with ConflictingOptions, including burn equal to zero; the check
of line 148 uses Python truthiness, so field with burn zero passes and the
call succeeds. -/
theorem C4_counterexample :
    c4args.field = some ("value") ∧ c4args.burn = some (PyNum.int 0) ∧
      (rusterize c4args).isOk = true :=
  ⟨rfl, rfl, rfl⟩

/-- A call whose res is a supplied empty sequence and nothing else. -/
def c5args : Args :=
  { data := InputData.geopandas gdfStd, res := some [] }

/-- C5 counterexample: the claim says GridUnderspecified occurs only when
none of res, out_shape, extent is given (or extent alone is); here res is
given, as an empty sequence, and line 182 still raises the
GridUnderspecified error because it tests Python truthiness rather than
presence. -/
theorem C5_counterexample :
    c5args.res.isSome = true ∧
      rusterize c5args = Except.error PyErr.noSpatialInfo :=
  ⟨rfl, rfl⟩

/-- A call on raw data with res only: nothing else supplied and no bounds
computed by the binding layer. -/
def c7args : Args :=
  { data := InputData.raw, res := some [PyNum.int 1, PyNum.int 1],
    encoding := "numpy" }

/-- C7 counterexample: the claim says every underived component of the
grid spec, the bounds included, is encoded as zero; for a raw geometry
source without a user extent the bounds reach the engine as four times
np.inf (line 160), not zero. -/
theorem C7_counterexample :
    (resultInfo (rusterize c7args)).map RawRasterInfo.xmin = some pInf ∧
      pInf ≠ PyNum.int 0 :=
  ⟨rfl, by decide⟩

/-! Error-origin lemmas: which exceptions each block of the body can
raise. They drive the only-if directions of the claims below. -/

/-- The extent block raises only the accompany error (and then extent is
truthy while res and out_shape are falsy) or the invalid-extent error. -/
theorem extentStep_error {res os ext : Option (List PyNum)} {e : PyErr}
    (h : extentStep res os ext = Except.error e) :
    (e = PyErr.extentNeedsResOrShape ∧ truthyL ext = true ∧
      truthyL res = false ∧ truthyL os = false) ∨ e = PyErr.invalidExtent := by
  unfold extentStep at h
  repeat' split at h
  all_goals simp_all [truthyL]

/-- The res block raises only the invalid-res error. -/
theorem resStep_error {res : Option (List PyNum)} {e : PyErr}
    (h : resStep res = Except.error e) : e = PyErr.invalidRes := by
  unfold resStep at h
  repeat' split at h
  all_goals simp_all

/-- The out_shape block raises only the invalid-shape error. -/
theorem shapeStep_error {os : Option (List PyNum)} {e : PyErr}
    (h : shapeStep os = Except.error e) : e = PyErr.invalidShape := by
  unfold shapeStep at h
  repeat' split at h
  all_goals simp_all

/-- The per-source block raises only a key error, the polars item failure,
or the type error of the unreachable other arm. -/
theorem dataStep_error {data : InputData} {f b : Option String}
    {bs : List PyNum} {wu : Bool} {e : PyErr}
    (h : dataStep data f b bs wu = Except.error e) :
    e = PyErr.keyErrGpd ∨ e = PyErr.keyErrPolars ∨
      e = PyErr.polarsItemErr ∨ e = PyErr.badDataType := by
  unfold dataStep at h
  repeat' split at h
  all_goals simp_all
  all_goals repeat' split at h
  all_goals simp_all

/-- The final assembly raises only an unbound-local error. -/
theorem mkCall_error {a : Args} {st : BodyLocals} {e : PyErr}
    (h : mkCall a st = Except.error e) :
    e = PyErr.unboundLocalEpsg ∨ e = PyErr.unboundLocalOther := by
  unfold mkCall at h
  repeat' split at h
  all_goals simp_all

/-- The like block raises only its four errors. -/
theorem likeStep_error {lk : LikeArg} {res os ext : Option (List PyNum)}
    {e : PyErr} (h : likeStep lk res os ext = Except.error e) :
    e = PyErr.likeTypeErr ∨ e = PyErr.likeConflict ∨ e = PyErr.likeNoRio ∨
      e = PyErr.likeNoSpatial := by
  unfold likeStep at h
  repeat' split at h
  all_goals simp_all

/-- When the like block succeeds, the local epsg is left unassigned. -/
theorem likeStep_ok {lk : LikeArg} {res os ext : Option (List PyNum)}
    {st : BodyLocals} (h : likeStep lk res os ext = Except.ok st) :
    st.epsgLocal = none := by
  unfold likeStep at h
  repeat' split at h
  all_goals simp_all
  all_goals subst h
  all_goals rfl

set_option maxHeartbeats 1000000 in
/-- Every exception the body after the early checks can raise, and for
the two grid-underspecification errors the exact condition under which
they arise. -/
theorem buildCall_error_origin (a : Args) (e : PyErr)
    (h : buildCall a = Except.error e) :
    e = PyErr.likeTypeErr ∨ e = PyErr.likeConflict ∨ e = PyErr.likeNoRio ∨
    e = PyErr.likeNoSpatial ∨ e = PyErr.unboundLocalEpsg ∨
    e = PyErr.unboundLocalOther ∨
    (e = PyErr.noSpatialInfo ∧ a.like = none ∧ truthyL a.res = false ∧
      truthyL a.out_shape = false ∧ truthyL a.extent = false) ∨
    (e = PyErr.extentNeedsResOrShape ∧ a.like = none ∧
      truthyL a.extent = true ∧ truthyL a.res = false ∧
      truthyL a.out_shape = false) ∨
    e = PyErr.invalidExtent ∨ e = PyErr.invalidRes ∨ e = PyErr.invalidShape ∨
    e = PyErr.keyErrGpd ∨ e = PyErr.keyErrPolars ∨ e = PyErr.polarsItemErr ∨
    e = PyErr.badDataType := by
  unfold buildCall at h
  split at h
  · rename_i lk hlk
    split at h
    · rename_i e1 hls
      have he : e = e1 := by simpa using h.symm
      subst he
      rcases likeStep_error hls with h1 | h1 | h1 | h1 <;> tauto
    · rename_i st hls
      rcases mkCall_error h with h1 | h1 <;> tauto
  · rename_i hlk
    by_cases hg :
        (!truthyL a.res && !truthyL a.out_shape && !truthyL a.extent) = true
    · rw [if_pos hg] at h
      have he : e = PyErr.noSpatialInfo := by simpa using h.symm
      simp only [Bool.and_eq_true, Bool.not_eq_true'] at hg
      refine Or.inr (Or.inr (Or.inr (Or.inr (Or.inr (Or.inr (Or.inl ?_))))))
      exact ⟨he, hlk, hg.1.1, hg.1.2, hg.2⟩
    · rw [if_neg hg] at h
      repeat' split at h
      · rename_i e1 hev
        have he : e = e1 := by simpa using h.symm
        subst he
        rcases extentStep_error hev with ⟨h1, h2, h3, h4⟩ | h1
        · exact Or.inr (Or.inr (Or.inr (Or.inr (Or.inr (Or.inr (Or.inr
            (Or.inl ⟨h1, hlk, h2, h3, h4⟩)))))))
        · tauto
      · rename_i e2 hrv
        have he : e = e2 := by simpa using h.symm
        subst he
        have := resStep_error hrv
        tauto
      · rename_i e3 hsv
        have he : e = e3 := by simpa using h.symm
        subst he
        have := shapeStep_error hsv
        tauto
      · rename_i e4 hdv
        have he : e = e4 := by simpa using h.symm
        subst he
        have := dataStep_error hdv
        tauto
      · simp [mkCall] at h

/-- A call setting both field and a nonzero burn. -/
def c4wargs : Args :=
  { data := InputData.geopandas gdfStd,
    res := some [PyNum.int 1, PyNum.int 1],
    field := some ("value"), burn := some (PyNum.int 5),
    encoding := "numpy" }

/-- C4 amended: on a call whose data passes dispatch, the engine fails
with ConflictingOptions exactly when field and burn are both truthy (a
nonempty field name and a nonzero burn); a burn of zero or an empty field
name does not trigger the conflict. -/
theorem C4_conflict_iff_truthy (a : Args)
    (hd : checkData a.data = Except.ok ()) :
    (rusterize a = Except.error PyErr.conflictFieldBurn ↔
      (truthyStr a.field = true ∧ truthyNum a.burn = true)) := by
  unfold rusterize
  rw [hd]
  by_cases hc : (truthyStr a.field && truthyNum a.burn) = true
  · rw [if_pos hc]
    simp only [Bool.and_eq_true] at hc
    simp [hc]
  · rw [if_neg hc]
    simp only [Bool.and_eq_true] at hc
    constructor
    · intro h
      by_cases he : (!encodingOk a.encoding) = true
      · rw [if_pos he] at h
        simp at h
      · rw [if_neg he] at h
        rcases buildCall_error_origin a _ h with
          h1 | h1 | h1 | h1 | h1 | h1 | ⟨h1, _⟩ | ⟨h1, _⟩ | h1 | h1 | h1 |
            h1 | h1 | h1 | h1 <;> simp at h1
    · intro hcc
      exact absurd hcc hc

/-- C4 amended witness: with field value and burn five the conflict is
raised. -/
theorem C4_conflict_iff_truthy_witness :
    rusterize c4wargs = Except.error PyErr.conflictFieldBurn :=
  (C4_conflict_iff_truthy c4wargs rfl).mpr ⟨rfl, rfl⟩

/-- C5 amended: with no like argument, on a call whose data passes
dispatch and whose field-burn and encoding checks pass, the call fails
with one of the two GridUnderspecified errors exactly when res, out_shape
and extent are all falsy (None or empty), or extent is truthy while res
and out_shape are both falsy. A supplied empty sequence counts as not
given, by Python truthiness. -/
theorem C5_underspec_iff (a : Args) (hlike : a.like = none)
    (hd : checkData a.data = Except.ok ())
    (hnc : (truthyStr a.field && truthyNum a.burn) = false)
    (henc : encodingOk a.encoding = true) :
    ((rusterize a = Except.error PyErr.noSpatialInfo ∨
      rusterize a = Except.error PyErr.extentNeedsResOrShape) ↔
     ((truthyL a.res = false ∧ truthyL a.out_shape = false ∧
       truthyL a.extent = false) ∨
      (truthyL a.extent = true ∧ truthyL a.res = false ∧
       truthyL a.out_shape = false))) := by
  have hrw : rusterize a = buildCall a := by
    unfold rusterize
    rw [hd, hnc]
    simp [henc]
  rw [hrw]
  constructor
  · intro h
    rcases h with h | h
    · rcases buildCall_error_origin a _ h with
        h1 | h1 | h1 | h1 | h1 | h1 | ⟨_, _, h2, h3, h4⟩ | ⟨h1, _⟩ | h1 |
          h1 | h1 | h1 | h1 | h1 | h1 <;> first | (simp at h1) | exact Or.inl ⟨h2, h3, h4⟩
    · rcases buildCall_error_origin a _ h with
        h1 | h1 | h1 | h1 | h1 | h1 | ⟨h1, _⟩ | ⟨_, _, h2, h3, h4⟩ | h1 |
          h1 | h1 | h1 | h1 | h1 | h1 <;> first | (simp at h1) | exact Or.inr ⟨h2, h3, h4⟩
  · intro h
    rcases h with ⟨h1, h2, h3⟩ | ⟨h1, h2, h3⟩
    · left
      unfold buildCall
      rw [hlike]
      simp [h1, h2, h3]
    · right
      unfold buildCall
      rw [hlike]
      rw [if_neg (by simp [h1])]
      cases hx : a.extent with
      | none => rw [hx] at h1; simp [truthyL] at h1
      | some l =>
        have hne : l.isEmpty = false := by
          rw [hx] at h1; simpa [truthyL] using h1
        rw [hx] at *
        simp [extentStep, hne, h2, h3]

/-- C5 amended witness: the concrete empty-res call lands in the first
disjunct and raises the first GridUnderspecified error. -/
theorem C5_underspec_iff_witness :
    rusterize c5args = Except.error PyErr.noSpatialInfo ∨
      rusterize c5args = Except.error PyErr.extentNeedsResOrShape :=
  (C5_underspec_iff c5args rfl rfl rfl rfl).mpr (Or.inl ⟨rfl, rfl, rfl⟩)

/-- When the like block succeeds, res, out_shape and extent were all
falsy. -/
theorem likeStep_ok_not_truthy {lk : LikeArg} {res os ext : Option (List PyNum)}
    {st : BodyLocals} (h : likeStep lk res os ext = Except.ok st) :
    truthyL res = false ∧ truthyL os = false ∧ truthyL ext = false := by
  unfold likeStep at h
  repeat' split at h
  all_goals simp_all

/-- A call combining an all-zero extent with a valid res. -/
def c9args : Args :=
  { data := InputData.geopandas gdfStd,
    res := some [PyNum.int 1, PyNum.int 1],
    extent := some [PyNum.int 0, PyNum.int 0, PyNum.int 0, PyNum.int 0],
    encoding := "numpy" }

/-- C9: a call whose extent is four zeros never returns a raster, and when
the call reaches the extent check (like absent, data dispatch, conflict
and encoding checks passed, res or out_shape truthy) it fails with the
invalid-extent error of line 190, although the extent is four numbers. -/
theorem C9_all_zero_extent (a : Args) (l : List PyNum)
    (hx : a.extent = some l) (hlen : l.length = 4)
    (hz : l.all PyNum.eq0 = true) :
    (rusterize a).isOk = false ∧
      (a.like = none → checkData a.data = Except.ok () →
        (truthyStr a.field && truthyNum a.burn) = false →
        encodingOk a.encoding = true →
        (truthyL a.res = true ∨ truthyL a.out_shape = true) →
        rusterize a = Except.error PyErr.invalidExtent) := by
  have hne : l.isEmpty = false := by cases l <;> simp_all
  have hte : truthyL a.extent = true := by simp [truthyL, hx, hne]
  constructor
  · unfold rusterize
    split
    · rfl
    · split
      · rfl
      · split
        · rfl
        · unfold buildCall
          split
          · rename_i lk hlk
            cases hls : likeStep lk a.res a.out_shape a.extent with
            | error e1 => rfl
            | ok st =>
              have := (likeStep_ok_not_truthy hls).2.2
              rw [hte] at this
              simp at this
          · rename_i hlk
            rw [if_neg (by simp [hte])]
            have hex : extentStep a.res a.out_shape a.extent =
                  Except.error PyErr.extentNeedsResOrShape ∨
                extentStep a.res a.out_shape a.extent =
                  Except.error PyErr.invalidExtent := by
              unfold extentStep
              rw [hx]
              by_cases h2 : (!truthyL a.res && !truthyL a.out_shape) = true
              · simp [hne, h2]
              · simp [hne, h2, hlen, hz]
            rcases hex with hex | hex <;> simp [hex, Except.isOk, Except.toBool]
  · intro hlike hd hnc henc hrs
    have hrw : rusterize a = buildCall a := by
      unfold rusterize
      rw [hd, hnc]
      simp [henc]
    rw [hrw]
    unfold buildCall
    rw [hlike]
    rw [if_neg (by simp [hte])]
    have hex : extentStep a.res a.out_shape a.extent =
        Except.error PyErr.invalidExtent := by
      unfold extentStep
      rw [hx]
      have h2 : (!truthyL a.res && !truthyL a.out_shape) = false := by
        rcases hrs with h | h <;> simp [h]
      simp [hne, h2, hlen, hz]
    simp [hex]

/-- C9 witness: the concrete all-zero extent with res given raises the
invalid-extent error, and in particular returns no raster. -/
theorem C9_all_zero_extent_witness :
    rusterize c9args = Except.error PyErr.invalidExtent :=
  (C9_all_zero_extent c9args
      [PyNum.int 0, PyNum.int 0, PyNum.int 0, PyNum.int 0]
      rfl rfl rfl).2 rfl rfl rfl rfl (Or.inl rfl)

/-- A polars call whose later rows carry different SRIDs. -/
def c10args : Args :=
  { data := InputData.polars plstStd,
    res := some [PyNum.int 1, PyNum.int 1],
    encoding := "numpy" }

/-- C10: on any polars call that returns a raster, the epsg attached to
the grid spec is a function of the SRID of the first geometry alone
(lines 237-239): zero gives no CRS, anything else gives itself; later
rows never enter the computation. -/
theorem C10_epsg_from_first_srid (a : Args) (p : PolarsDF) (s : Int)
    (rest : List Int) (hd : a.data = InputData.polars p)
    (hs : p.srids = s :: rest) (hok : (rusterize a).isOk = true) :
    resultEpsg (rusterize a) = some (if s = 0 then none else some s) := by
  have hd2 : checkData a.data = Except.ok () := by
    rw [hd]
    simp [checkData, hs]
  have hc : (truthyStr a.field && truthyNum a.burn) = false := by
    by_contra hcc
    rw [Bool.not_eq_false] at hcc
    have hr : rusterize a = Except.error PyErr.conflictFieldBurn := by
      unfold rusterize
      rw [hd2, if_pos hcc]
    rw [hr] at hok
    simp [Except.isOk, Except.toBool] at hok
  have henc2 : encodingOk a.encoding = true := by
    by_contra hee
    rw [Bool.not_eq_true] at hee
    have hr : rusterize a = Except.error PyErr.badEncoding := by
      unfold rusterize
      rw [hd2, if_neg (by simp [hc]), if_pos (by simp [hee])]
    rw [hr] at hok
    simp [Except.isOk, Except.toBool] at hok
  have hrw : rusterize a = buildCall a := by
    unfold rusterize
    rw [hd2, if_neg (by simp [hc]), if_neg (by simp [henc2])]
  rw [hrw] at hok ⊢
  have hlk : a.like = none := by
    cases hlkv : a.like with
    | none => rfl
    | some lk =>
      exfalso
      have hbc : (buildCall a).isOk = false := by
        unfold buildCall
        cases hls : likeStep lk a.res a.out_shape a.extent with
        | error e1 =>
          simp only [hlkv, hls]
          rfl
        | ok st =>
          simp only [hlkv, hls]
          have hnone := likeStep_ok hls
          unfold mkCall
          rw [hnone]
          rfl
      rw [hbc] at hok
      simp at hok
  unfold buildCall at hok ⊢
  simp only [hlk] at hok ⊢
  have hg : (!truthyL a.res && !truthyL a.out_shape && !truthyL a.extent)
      = false := by
    by_contra hgg
    rw [Bool.not_eq_false] at hgg
    rw [if_pos hgg] at hok
    simp [Except.isOk, Except.toBool] at hok
  rw [if_neg (by simp [hg])] at hok ⊢
  cases hev : extentStep a.res a.out_shape a.extent with
  | error e1 =>
    simp only [hev] at hok
    simp [Except.isOk, Except.toBool] at hok
  | ok p1 =>
    obtain ⟨b0, wu⟩ := p1
    simp only [hev] at hok ⊢
    cases hrv : resStep a.res with
    | error e2 =>
      simp only [hrv] at hok
      simp [Except.isOk, Except.toBool] at hok
    | ok r2 =>
      simp only [hrv] at hok ⊢
      cases hsv : shapeStep a.out_shape with
      | error e3 =>
        simp only [hsv] at hok
        simp [Except.isOk, Except.toBool] at hok
      | ok s3 =>
        simp only [hsv] at hok ⊢
        cases hdv : dataStep a.data a.field a.byCol b0 wu with
        | error e4 =>
          simp only [hdv] at hok
          simp [Except.isOk, Except.toBool] at hok
        | ok q =>
          obtain ⟨bounds, epsg, df, geoms⟩ := q
          simp only [hdv] at hok ⊢
          have hepsg : epsg = if s = 0 then none else some s := by
            rw [hd] at hdv
            simp only [dataStep, hs, List.head?_cons] at hdv
            repeat' split at hdv
            all_goals simp_all
          subst hepsg
          simp [mkCall, resultEpsg]

/-- C10 witness: with first SRID 4326 and later SRIDs 3857 and 0 the
attached epsg is 4326. -/
theorem C10_epsg_from_first_srid_witness :
    resultEpsg (rusterize c10args) =
      some (if (4326 : Int) = 0 then none else some 4326) :=
  C10_epsg_from_first_srid c10args plstStd 4326 [3857, 0] rfl rfl rfl

/-- On a geopandas call with valid truthy res, no like, no extent, no
out_shape, passing conflict, encoding and column checks, the call reaches
the native engine. -/
theorem simple_call_ok (a : Args) (g : GeoDF) (l : List PyNum)
    (hd : a.data = InputData.geopandas g) (hn : g.nrows ≠ 0)
    (hl : a.like = none) (he : a.extent = none) (hs : a.out_shape = none)
    (hr : a.res = some l) (hl2 : l.length = 2)
    (hpos : l.any PyNum.le0 = false)
    (hnc : (truthyStr a.field && truthyNum a.burn) = false)
    (henc : encodingOk a.encoding = true)
    (hcols : ((colsOf a.field a.byCol).all fun c => g.columns.contains c)
      = true) :
    (rusterize a).isOk = true := by
  have hne : l.isEmpty = false := by cases l <;> simp_all
  have hd2 : checkData a.data = Except.ok () := by
    rw [hd]
    simp [checkData, hn]
  have hrw : rusterize a = buildCall a := by
    unfold rusterize
    rw [hd2, if_neg (by simp [hnc]), if_neg (by simp [henc])]
  rw [hrw]
  unfold buildCall
  simp only [hl]
  rw [if_neg (by simp [truthyL, hr, hne])]
  have hev : extentStep a.res a.out_shape a.extent =
      Except.ok ([pInf, pInf, pInf, pInf], false) := by
    rw [he]
    rfl
  simp only [hev]
  have hrv : resStep a.res =
      Except.ok (l.getD 0 (PyNum.int 0), l.getD 1 (PyNum.int 0)) := by
    rw [hr]
    simp only [resStep]
    rw [if_neg (by simp [hne]), if_neg (by simp [hl2, hpos])]
  simp only [hrv]
  have hsv : shapeStep a.out_shape = Except.ok (PyNum.int 0, PyNum.int 0) := by
    rw [hs]
    rfl
  simp only [hsv]
  have hdv : ∃ dfv,
      dataStep a.data a.field a.byCol [pInf, pInf, pInf, pInf] false =
        Except.ok (g.totalBounds, g.crsEpsg, dfv, GeomSrc.gdf) := by
    rw [hd]
    by_cases hce : (colsOf a.field a.byCol).isEmpty = true
    · exact ⟨none, by simp [dataStep, hce]⟩
    · have hcols2 : ∀ x ∈ colsOf a.field a.byCol, x ∈ g.columns := by
        simpa using hcols
      refine ⟨some (colsOf a.field a.byCol), ?_⟩
      simp [dataStep, hce]
      exact hcols2
  obtain ⟨dfv, hdv⟩ := hdv
  simp only [hdv]
  rfl

/-- Modelled from the spec: the native reduction core is not under src.
Per record the contribution burned is taken from the field column when
field is given; otherwise it is the burn value when given; otherwise the
default 1 (spec section 3, Record, and the docstring note at line 91 of
`src/python/rusterize/__init__.py`). A none result means the value varies
per record with the field column. -/
def defaultContribution (field : Option String) (burn : Option PyNum) :
    Option PyNum :=
  match field with
  | some _ => none
  | none => some (burn.getD (PyNum.int 1))

/-- A geopandas frame with a group column and no field column. -/
def gdfGrouped : GeoDF :=
  { nrows := 5, crsEpsg := none,
    totalBounds := [PyNum.float 0, PyNum.float 0,
                    PyNum.float 10, PyNum.float 10],
    columns := ["group"], tb4 := rfl }

/-- A call grouping with by but never setting field or burn. -/
def c6args : Args :=
  { data := InputData.geopandas gdfGrouped, byCol := some ("group"),
    res := some [PyNum.int 1, PyNum.int 1], encoding := "numpy" }

/-- C6: a call that sets by without field is accepted, with no
ConflictingOptions and no by-requires-field error, and the contribution
burned into each group is the default 1. -/
theorem C6_by_without_field (a : Args) (g : GeoDF) (l : List PyNum)
    (b : String)
    (hd : a.data = InputData.geopandas g) (hn : g.nrows ≠ 0)
    (hl : a.like = none) (he : a.extent = none) (hs : a.out_shape = none)
    (hr : a.res = some l) (hl2 : l.length = 2)
    (hpos : l.any PyNum.le0 = false)
    (henc : encodingOk a.encoding = true)
    (hby : a.byCol = some b) (hb1 : b ≠ "") (hb2 : b ≠ "geometry")
    (hbc : g.columns.contains b = true)
    (hf : a.field = none) (hburn : a.burn = none) :
    (rusterize a).isOk = true ∧
      defaultContribution a.field a.burn = some (PyNum.int 1) := by
  constructor
  · apply simple_call_ok a g l hd hn hl he hs hr hl2 hpos
    · simp [hf, truthyStr]
    · exact henc
    · have hmem : b ∈ g.columns := by simpa using hbc
      simp [colsOf, hf, hby, hb1, hb2, hmem]
  · simp [defaultContribution, hf, hburn]

/-- C6 witness: the concrete grouped call is accepted and burns 1. -/
theorem C6_by_without_field_witness :
    (rusterize c6args).isOk = true ∧
      defaultContribution c6args.field c6args.burn = some (PyNum.int 1) :=
  C6_by_without_field c6args gdfGrouped [PyNum.int 1, PyNum.int 1] "group"
    rfl (by decide) rfl rfl rfl rfl rfl rfl rfl rfl (by decide) (by decide)
    (by decide) rfl rfl

/-- Dtype is the set of output element types of the engine (spec section
4.4); names as accepted by the binding, for example uint8 or float64. -/
inductive Dtype where
  | u8 | u16 | u32 | u64 | i8 | i16 | i32 | i64 | f32 | f64
deriving DecidableEq

/-- Whether the dtype is one of the integer types. -/
def Dtype.isIntType : Dtype → Bool
  | .f32 => false
  | .f64 => false
  | _ => true

/-- Smallest representable integer of an integer dtype (0 for floats). -/
def Dtype.lo : Dtype → Int
  | .i8 => -128
  | .i16 => -32768
  | .i32 => -2147483648
  | .i64 => -9223372036854775808
  | _ => 0

/-- Largest representable integer of an integer dtype (0 for floats). -/
def Dtype.hi : Dtype → Int
  | .u8 => 255
  | .u16 => 65535
  | .u32 => 4294967295
  | .u64 => 18446744073709551615
  | .i8 => 127
  | .i16 => 32767
  | .i32 => 2147483647
  | .i64 => 9223372036854775807
  | _ => 0

/-- The dtype named by the dtype string argument of the binding. -/
def Dtype.ofName (s : String) : Option Dtype :=
  if s == "uint8" then some .u8
  else if s == "uint16" then some .u16
  else if s == "uint32" then some .u32
  else if s == "uint64" then some .u64
  else if s == "int8" then some .i8
  else if s == "int16" then some .i16
  else if s == "int32" then some .i32
  else if s == "int64" then some .i64
  else if s == "float32" then some .f32
  else if s == "float64" then some .f64
  else none

/-- Modelled from the spec: whether a numeric value is representable in
the output type (spec section 4.4, type coercion). For an integer type
the value must be a whole number within range; nan and the infinities are
not representable. Float types represent every modelled value. -/
def representable (v : PyNum) (d : Dtype) : Bool :=
  if d.isIntType then
    match v with
    | .int n => decide (d.lo ≤ n) && decide (n ≤ d.hi)
    | .float q => q.den == 1 && decide (d.lo ≤ q.num) && decide (q.num ≤ d.hi)
    | .nan => false
    | .inf _ => false
  else true

/-- Modelled from the spec: the default of a dtype, 0 for integer types
and nan for float types (spec section 4.4 and the docstring note at line
93 of `src/python/rusterize/__init__.py`). -/
def dtypeDefault (d : Dtype) : PyNum :=
  if d.isIntType then PyNum.int 0 else PyNum.nan

/-- Modelled from the spec: coercion of the background value to the
output type; a missing background or one the type cannot represent is
replaced by the default of the type, without raising (spec section
4.4). -/
def coerceBackground (bg : Option PyNum) (d : Dtype) : PyNum :=
  match bg with
  | none => dtypeDefault d
  | some v => if representable v d then v else dtypeDefault d

/-- Modelled from the spec: the finalize step of every reduction writes
the background to a pixel whose state is unset (spec section 4.4). -/
def finalizeUnset (bg : PyNum) : PyNum := bg

/-- A call with integer dtype and the default nan background. -/
def c8args : Args :=
  { data := InputData.geopandas gdfStd,
    res := some [PyNum.int 1, PyNum.int 1],
    encoding := "numpy", dtype := "uint8",
    background := some PyNum.nan }

/-- C8: an otherwise-valid call whose background is not representable in
its integer dtype does not raise, and the background is replaced by the
dtype default 0, the value that pixels touched by no geometry carry. -/
theorem C8_background_coercion (a : Args) (g : GeoDF) (l : List PyNum)
    (d : Dtype) (bg : PyNum)
    (hd : a.data = InputData.geopandas g) (hn : g.nrows ≠ 0)
    (hl : a.like = none) (he : a.extent = none) (hs : a.out_shape = none)
    (hr : a.res = some l) (hl2 : l.length = 2)
    (hpos : l.any PyNum.le0 = false)
    (hnc : (truthyStr a.field && truthyNum a.burn) = false)
    (henc : encodingOk a.encoding = true)
    (hcols : ((colsOf a.field a.byCol).all fun c => g.columns.contains c)
      = true)
    (hbg : a.background = some bg)
    (_hdt : Dtype.ofName a.dtype = some d)
    (hint : d.isIntType = true)
    (hnr : representable bg d = false) :
    (rusterize a).isOk = true ∧
      coerceBackground a.background d = PyNum.int 0 ∧
      finalizeUnset (coerceBackground a.background d) = PyNum.int 0 := by
  refine ⟨simple_call_ok a g l hd hn hl he hs hr hl2 hpos hnc henc hcols,
    ?_, ?_⟩
  · simp [coerceBackground, hbg, hnr, dtypeDefault, hint]
  · simp [finalizeUnset, coerceBackground, hbg, hnr, dtypeDefault, hint]

/-- C8 witness: nan into uint8 does not raise and becomes 0. -/
theorem C8_background_coercion_witness :
    (rusterize c8args).isOk = true ∧
      coerceBackground c8args.background Dtype.u8 = PyNum.int 0 ∧
      finalizeUnset (coerceBackground c8args.background Dtype.u8)
        = PyNum.int 0 :=
  C8_background_coercion c8args gdfStd [PyNum.int 1, PyNum.int 1]
    Dtype.u8 PyNum.nan rfl (by decide) rfl rfl rfl rfl rfl rfl rfl rfl
    (by decide) rfl rfl rfl rfl

/-- A raw call with out_shape only: res stays at its (0, 0) default. -/
def c7bargs : Args :=
  { data := InputData.raw,
    out_shape := some [PyNum.int 47, PyNum.int 319],
    encoding := "numpy" }

/-- C7 amended: for a raw geometry source without a user extent, every
underived component of the grid spec reaches the engine as its sentinel:
zero for nrows and ncols when out_shape is absent, zero for xres and yres
when res is absent (line 161), but positive infinity, not zero, for the
four bounds (line 160); with_user_extent is false and epsg is none. The
hypotheses accept any combination of a valid or absent res and out_shape
with at least one truthy, through their blocks resStep and shapeStep. -/
theorem C7_sentinels (a : Args) (rr sh : PyNum × PyNum)
    (hd : a.data = InputData.raw) (hl : a.like = none) (he : a.extent = none)
    (hnc : (truthyStr a.field && truthyNum a.burn) = false)
    (henc : encodingOk a.encoding = true)
    (hgrid : truthyL a.res = true ∨ truthyL a.out_shape = true)
    (hrv : resStep a.res = Except.ok rr)
    (hsv : shapeStep a.out_shape = Except.ok sh) :
    resultInfo (rusterize a) = some
      { nrows := sh.1, ncols := sh.2,
        xmin := pInf, ymin := pInf, xmax := pInf, ymax := pInf,
        xres := rr.1, yres := rr.2,
        with_user_extent := false, tap := a.tap, epsg := none } ∧
      (a.res = none → rr = (PyNum.int 0, PyNum.int 0)) ∧
      (a.out_shape = none → sh = (PyNum.int 0, PyNum.int 0)) := by
  refine ⟨?_, ?_, ?_⟩
  · have hd2 : checkData a.data = Except.ok () := by
      rw [hd]
      rfl
    have hrw : rusterize a = buildCall a := by
      unfold rusterize
      rw [hd2, if_neg (by simp [hnc]), if_neg (by simp [henc])]
    rw [hrw]
    unfold buildCall
    simp only [hl]
    rw [if_neg (by rcases hgrid with h | h <;> simp [h])]
    have hev : extentStep a.res a.out_shape a.extent =
        Except.ok ([pInf, pInf, pInf, pInf], false) := by
      rw [he]
      rfl
    simp only [hev, hrv, hsv]
    have hdv : dataStep a.data a.field a.byCol [pInf, pInf, pInf, pInf] false =
        Except.ok ([pInf, pInf, pInf, pInf], none, none, GeomSrc.rawList) := by
      rw [hd]
      rfl
    simp only [hdv]
    simp [mkCall, resultInfo]
  · intro hrn
    rw [hrn] at hrv
    simpa [resStep] using hrv.symm
  · intro hsn
    rw [hsn] at hsv
    simpa [shapeStep] using hsv.symm

/-- C7 amended witness: the out_shape-only raw call reaches the engine
with its shape, zero xres and yres sentinels and infinite bounds
sentinels, and the res-only raw call with its res, zero nrows and ncols
sentinels and infinite bounds sentinels. -/
theorem C7_sentinels_witness :
    (resultInfo (rusterize c7bargs) = some
        { nrows := PyNum.int 47, ncols := PyNum.int 319,
          xmin := pInf, ymin := pInf, xmax := pInf, ymax := pInf,
          xres := PyNum.int 0, yres := PyNum.int 0,
          with_user_extent := false, tap := false, epsg := none } ∧
      (c7bargs.res = none →
        (PyNum.int 0, PyNum.int 0) = (PyNum.int 0, PyNum.int 0)) ∧
      (c7bargs.out_shape = none →
        (PyNum.int 47, PyNum.int 319) = (PyNum.int 0, PyNum.int 0))) ∧
    (resultInfo (rusterize c7args) = some
        { nrows := PyNum.int 0, ncols := PyNum.int 0,
          xmin := pInf, ymin := pInf, xmax := pInf, ymax := pInf,
          xres := PyNum.int 1, yres := PyNum.int 1,
          with_user_extent := false, tap := false, epsg := none } ∧
      (c7args.res = none → (PyNum.int 1, PyNum.int 1) = (PyNum.int 0, PyNum.int 0)) ∧
      (c7args.out_shape = none →
        (PyNum.int 0, PyNum.int 0) = (PyNum.int 0, PyNum.int 0))) :=
  ⟨C7_sentinels c7bargs (PyNum.int 0, PyNum.int 0)
      (PyNum.int 47, PyNum.int 319) rfl rfl rfl rfl rfl (Or.inr rfl) rfl rfl,
   C7_sentinels c7args (PyNum.int 1, PyNum.int 1)
      (PyNum.int 0, PyNum.int 0) rfl rfl rfl rfl rfl (Or.inl rfl) rfl rfl⟩

/-! Part 2: the scan converter of the native core, which is not under
`src/`. The definitions below are modelled from spec section 4.3 and the
data model of sections 2 and 3; coordinates are exact rationals in place
of the doubles of the implementation. -/

/-- A vertex in world coordinates. -/
abbrev Pt : Type := ℚ × ℚ

/-- Modelled from the spec: the resolved pixel grid of section 3, with
row 0 the topmost row at ymax and column 0 the leftmost column at
xmin. -/
structure ResolvedGrid where
  xmin : ℚ
  ymax : ℚ
  xres : ℚ
  yres : ℚ
  ncols : Nat
  nrows : Nat

/-- Modelled from the spec: the world y of the horizontal line at the
centre of scan row r, ymax minus (r plus one half) times yres (section
4.3, polygon fill). -/
def scanY (g : ResolvedGrid) (r : Int) : ℚ :=
  g.ymax - ((r : ℚ) + 1 / 2) * g.yres

/-- Modelled from the spec: the crossing of one edge with the scan line
at height y (section 4.3): exactly horizontal edges are skipped, a
crossing counts under the half-open rule min(y1,y2) ≤ y < max(y1,y2),
and its abscissa is x1 + (y − y1)·(x2 − x1)/(y2 − y1). -/
def edgeCrossing (y : ℚ) (e : Pt × Pt) : Option ℚ :=
  if e.1.2 = e.2.2 then none
  else if min e.1.2 e.2.2 ≤ y ∧ y < max e.1.2 e.2.2 then
    some (e.1.1 + (y - e.1.2) * (e.2.1 - e.1.1) / (e.2.2 - e.1.2))
  else none

/-- The edges of an implicitly closed ring, walked from cur through the
remaining vertices and back to the first vertex. -/
def edgesFrom (first : Pt) : Pt → List Pt → List (Pt × Pt)
  | cur, [] => [(cur, first)]
  | cur, next :: rest => (cur, next) :: edgesFrom first next rest

/-- Modelled from the spec: the edge list of a ring, a sequence of
vertices implicitly closed (section 3, Primitive). -/
def ringEdges : List Pt → List (Pt × Pt)
  | [] => []
  | v :: vs => edgesFrom v v vs

/-- All edges of every ring of the current record, shell and holes alike
(section 4.3: the scan line is intersected against every edge of every
ring of the current record; holes flip the even-odd parity). -/
def recordEdges (rings : List (List Pt)) : List (Pt × Pt) :=
  (rings.map ringEdges).flatten

/-- The crossing abscissas of the scan line at height y with the record,
in edge order. -/
def crossingsOf (rings : List (List Pt)) (y : ℚ) : List ℚ :=
  (recordEdges rings).filterMap (edgeCrossing y)

/-- Modelled from the spec: pair the sorted crossings as (x0, x1),
(x2, x3) and so on (section 4.3). -/
def pairSpans : List ℚ → List (ℚ × ℚ)
  | a :: b :: rest => (a, b) :: pairSpans rest
  | _ => []

/-- Modelled from the spec: the engine fill rule of section 4.3. Pixel
(r, c) of the grid is emitted when some pair (x0, x1) of the sorted
crossing list of scan row r spans it: c lies in the inclusive span from
floor((x0 − xmin)/xres) to floor((x1 − xmin)/xres) − 1, clamped to the
grid (the clamp is the intersection with the column range, stated here
as the range bounds on c). -/
def engineFillCovers (rings : List (List Pt)) (g : ResolvedGrid)
    (r c : Int) : Prop :=
  0 ≤ r ∧ r < (g.nrows : Int) ∧ 0 ≤ c ∧ c < (g.ncols : Int) ∧
  ∃ p ∈ pairSpans
      (List.insertionSort (fun a b : ℚ => a ≤ b)
        (crossingsOf rings (scanY g r))),
    ⌊(p.1 - g.xmin) / g.xres⌋ ≤ c ∧ c ≤ ⌊(p.2 - g.xmin) / g.xres⌋ - 1

/-- Modelled from the spec: the reference rasterizer fill, the even-odd
rule the spec mandates as matching GDAL (sections 2, 4.2, 4.3 and 8.1):
pixel (r, c) is filled when the crossing count of the record strictly
left of the abscissa xmin + (c+1)·xres, the sample point consistent with
the span formula of section 4.3, is odd. -/
def gdalFillCovers (rings : List (List Pt)) (g : ResolvedGrid)
    (r c : Int) : Prop :=
  0 ≤ r ∧ r < (g.nrows : Int) ∧ 0 ≤ c ∧ c < (g.ncols : Int) ∧
  (crossingsOf rings (scanY g r)).countP
      (fun x => decide (x < g.xmin + ((c : ℚ) + 1) * g.xres)) % 2 = 1

/-- Modelled from the spec: the all-touched rule adds to the fill every
pixel grazed by a boundary edge walked as a polyline (section 4.3); the
same edge walk feeds the engine and the reference, so it enters here as
a parameter B. -/
def engineAllTouchedCovers (B : Int → Int → Prop)
    (rings : List (List Pt)) (g : ResolvedGrid) (r c : Int) : Prop :=
  engineFillCovers rings g r c ∨ B r c

/-- Modelled from the spec: the reference all-touched rule, the same
union on the reference side. -/
def gdalAllTouchedCovers (B : Int → Int → Prop)
    (rings : List (List Pt)) (g : ResolvedGrid) (r c : Int) : Prop :=
  gdalFillCovers rings g r c ∨ B r c

/-- Both abscissas of a pair come from the crossing list. -/
theorem mem_pairSpans : ∀ {xs : List ℚ} {p : ℚ × ℚ},
    p ∈ pairSpans xs → p.1 ∈ xs ∧ p.2 ∈ xs
  | [], p, h => by simp [pairSpans] at h
  | [x], p, h => by simp [pairSpans] at h
  | a :: b :: rest, p, h => by
    simp only [pairSpans, List.mem_cons] at h
    rcases h with h | h
    · subst h
      exact ⟨List.mem_cons_self _ _,
        List.mem_cons_of_mem _ (List.mem_cons_self _ _)⟩
    · obtain ⟨h1, h2⟩ := mem_pairSpans h
      exact ⟨List.mem_cons_of_mem _ (List.mem_cons_of_mem _ h1),
        List.mem_cons_of_mem _ (List.mem_cons_of_mem _ h2)⟩

/-- The pairing of a sorted even-length crossing list spans a point t
exactly when the number of crossings strictly left of t is odd: the
scan-line pairing realizes the even-odd rule. -/
theorem pairSpans_parity : ∀ (xs : List ℚ),
    xs.Sorted (fun a b : ℚ => a ≤ b) → xs.length % 2 = 0 → ∀ t : ℚ,
    ((∃ p ∈ pairSpans xs, p.1 < t ∧ t ≤ p.2) ↔
      xs.countP (fun x => decide (x < t)) % 2 = 1)
  | [], _, _, t => by simp [pairSpans]
  | [x], _, hlen, t => by simp at hlen
  | a :: b :: rest, hsort, hlen, t => by
    obtain ⟨hab, hrest⟩ := List.sorted_cons.mp hsort
    obtain ⟨hbrest, hrest2⟩ := List.sorted_cons.mp hrest
    have hab2 : a ≤ b := hab b (List.mem_cons_self b rest)
    have hlen2 : rest.length % 2 = 0 := by
      simp [List.length_cons] at hlen
      omega
    rcases le_or_lt t a with hta | hat
    · constructor
      · rintro ⟨p, hp, hp1, hp2⟩
        exfalso
        simp only [pairSpans, List.mem_cons] at hp
        rcases hp with h | h
        · subst h
          exact absurd hp1 (not_lt.mpr hta)
        · obtain ⟨h1, _⟩ := mem_pairSpans h
          exact absurd hp1
            (not_lt.mpr (le_trans hta (le_trans hab2 (hbrest p.1 h1))))
      · intro hcount
        exfalso
        have h0 : (a :: b :: rest).countP (fun x => decide (x < t)) = 0 := by
          rw [List.countP_eq_zero]
          intro x hx
          simp only [decide_eq_true_eq, not_lt]
          rcases List.mem_cons.mp hx with h | h
          · subst h
            exact hta
          rcases List.mem_cons.mp h with h | h
          · subst h
            exact le_trans hta hab2
          · exact le_trans hta (le_trans hab2 (hbrest x h))
        rw [h0] at hcount
        simp at hcount
    · rcases le_or_lt t b with htb | hbt
      · constructor
        · intro _
          have hrest0 : rest.countP (fun x => decide (x < t)) = 0 := by
            rw [List.countP_eq_zero]
            intro x hx
            simp only [decide_eq_true_eq, not_lt]
            exact le_trans htb (hbrest x hx)
          rw [List.countP_cons, List.countP_cons, hrest0]
          simp [hat, not_lt.mpr htb]
        · intro _
          refine ⟨(a, b), ?_, hat, htb⟩
          simp [pairSpans]
      · have hat2 : a < t := lt_of_le_of_lt hab2 hbt
        have ih := pairSpans_parity rest hrest2 hlen2 t
        constructor
        · rintro ⟨p, hp, hp1, hp2⟩
          simp only [pairSpans, List.mem_cons] at hp
          rcases hp with h | h
          · subst h
            exact absurd hp2 (not_le.mpr hbt)
          · have hodd := ih.mp ⟨p, h, hp1, hp2⟩
            rw [List.countP_cons, List.countP_cons]
            simp only [decide_eq_true_eq, hat2, hbt, if_pos]
            omega
        · intro hcount
          rw [List.countP_cons, List.countP_cons] at hcount
          simp only [decide_eq_true_eq, hat2, hbt, if_pos] at hcount
          obtain ⟨p, hp, h1, h2⟩ := ih.mpr (by omega)
          refine ⟨p, ?_, h1, h2⟩
          simp only [pairSpans, List.mem_cons]
          exact Or.inr hp

/-- An edge crosses the scan line exactly when its endpoints lie on
opposite sides of the half-open level set y1 ≤ y. -/
theorem edgeCrossing_isSome (y : ℚ) (e : Pt × Pt) :
    (edgeCrossing y e).isSome =
      (decide (e.1.2 ≤ y) != decide (e.2.2 ≤ y)) := by
  obtain ⟨⟨x1, y1⟩, ⟨x2, y2⟩⟩ := e
  simp only [edgeCrossing]
  by_cases heq : y1 = y2
  · subst heq
    simp
  · rcases le_or_lt y1 y with h1 | h1 <;> rcases le_or_lt y2 y with h2 | h2
    · rw [if_neg heq, if_neg]
      · simp [h1, h2]
      · rintro ⟨_, hmax⟩
        exact absurd hmax (not_lt.mpr (max_le h1 h2))
    · rw [if_neg heq,
        if_pos ⟨le_trans (min_le_left y1 y2) h1,
          lt_of_lt_of_le h2 (le_max_right y1 y2)⟩]
      simp [h1, not_le.mpr h2]
    · rw [if_neg heq,
        if_pos ⟨le_trans (min_le_right y1 y2) h2,
          lt_of_lt_of_le h1 (le_max_left y1 y2)⟩]
      simp [h2, not_le.mpr h1]
    · rw [if_neg heq, if_neg]
      · simp [not_le.mpr h1, not_le.mpr h2]
      · rintro ⟨hmin, _⟩
        exact absurd hmin (not_le.mpr (lt_min h1 h2))

/-- Along an open chain from cur back to first, the number of crossing
edges is odd exactly when cur and first lie on opposite sides of the
scan line. -/
theorem edgesFrom_crossing_parity (y : ℚ) (first : Pt) :
    ∀ (cur : Pt) (vs : List Pt),
    (edgesFrom first cur vs).countP
        (fun e => (edgeCrossing y e).isSome) % 2 =
      (if (decide (cur.2 ≤ y) != decide (first.2 ≤ y)) = true then 1 else 0)
  | cur, [] => by
    simp only [edgesFrom, List.countP_cons, List.countP_nil,
      edgeCrossing_isSome]
    split <;> rfl
  | cur, next :: rest => by
    have ih := edgesFrom_crossing_parity y first next rest
    simp only [edgesFrom, List.countP_cons]
    rw [edgeCrossing_isSome]
    rcases hb1 : decide (cur.2 ≤ y) <;> rcases hb2 : decide (next.2 ≤ y) <;>
      rcases hb3 : decide (first.2 ≤ y) <;>
        simp only [hb1, hb2, hb3] at ih ⊢ <;> simp at ih ⊢ <;> omega

/-- A closed ring crosses any scan line an even number of times under
the half-open rule. -/
theorem ringEdges_crossing_even (y : ℚ) (vs : List Pt) :
    (ringEdges vs).countP (fun e => (edgeCrossing y e).isSome) % 2 = 0 := by
  cases vs with
  | nil => simp [ringEdges]
  | cons v rest =>
    have h := edgesFrom_crossing_parity y v v rest
    simpa [ringEdges] using h

/-- The length of a filterMap is the count of elements mapped to some
value. -/
theorem length_filterMap_eq_countP {α β : Type*} (f : α → Option β) :
    ∀ l : List α, (l.filterMap f).length = l.countP (fun a => (f a).isSome)
  | [] => rfl
  | a :: l => by
    rw [List.filterMap_cons, List.countP_cons]
    cases hf : f a with
    | none => simp [hf, length_filterMap_eq_countP f l]
    | some b => simp [hf, length_filterMap_eq_countP f l]

/-- A record made of closed rings has an even number of scan-line
crossings. -/
theorem crossingsOf_length_even (rings : List (List Pt)) (y : ℚ) :
    (crossingsOf rings y).length % 2 = 0 := by
  induction rings with
  | nil => rfl
  | cons ring rest ih =>
    have hsplit : crossingsOf (ring :: rest) y =
        (ringEdges ring).filterMap (edgeCrossing y) ++ crossingsOf rest y := by
      simp [crossingsOf, recordEdges, List.filterMap_append]
    rw [hsplit, List.length_append]
    have h1 : ((ringEdges ring).filterMap (edgeCrossing y)).length % 2 = 0 := by
      rw [length_filterMap_eq_countP]
      exact ringEdges_crossing_even y ring
    omega

/-- The inclusive column span of the spec, from floor((x1 − xmin)/xres)
to floor((x2 − xmin)/xres) − 1, contains c exactly when the abscissa
xmin + (c+1)·xres lies in the half-open interval (x1, x2]. -/
theorem span_mem_iff (xmin xres : ℚ) (hx : 0 < xres) (x1 x2 : ℚ) (c : Int) :
    (⌊(x1 - xmin) / xres⌋ ≤ c ∧ c ≤ ⌊(x2 - xmin) / xres⌋ - 1) ↔
      (x1 < xmin + ((c : ℚ) + 1) * xres ∧
        xmin + ((c : ℚ) + 1) * xres ≤ x2) := by
  constructor
  · rintro ⟨h1, h2⟩
    constructor
    · have hf : ⌊(x1 - xmin) / xres⌋ < c + 1 := by omega
      rw [Int.floor_lt] at hf
      have hd := (div_lt_iff₀ hx).mp hf
      push_cast at hd
      linarith
    · have hf : (c + 1 : Int) ≤ ⌊(x2 - xmin) / xres⌋ := by omega
      rw [Int.le_floor] at hf
      have hd := (le_div_iff₀ hx).mp hf
      push_cast at hd
      linarith
  · rintro ⟨h1, h2⟩
    constructor
    · have h1b : (x1 - xmin) / xres < ((c : ℚ) + 1) := by
        rw [div_lt_iff₀ hx]
        linarith
      have hf : ⌊(x1 - xmin) / xres⌋ < c + 1 := by
        rw [Int.floor_lt]
        push_cast
        exact h1b
      omega
    · have h2b : ((c : ℚ) + 1) ≤ (x2 - xmin) / xres := by
        rw [le_div_iff₀ hx]
        linarith
      have hf : (c + 1 : Int) ≤ ⌊(x2 - xmin) / xres⌋ := by
        rw [Int.le_floor]
        push_cast
        exact h2b
      omega

/-- C1: for every geometry record (a list of closed rings) and every grid
with positive xres, at every pixel the engine scanline fill of section
4.3 agrees with the reference even-odd rasterization, and with any edge
walk B shared by both sides the all-touched rule agrees as well: the
emitted pixel sets are equal, pixel for pixel. -/
theorem C1_engine_matches_reference (rings : List (List Pt))
    (g : ResolvedGrid) (hx : 0 < g.xres) (B : Int → Int → Prop)
    (r c : Int) :
    (engineFillCovers rings g r c ↔ gdalFillCovers rings g r c) ∧
      (engineAllTouchedCovers B rings g r c ↔
        gdalAllTouchedCovers B rings g r c) := by
  have main : engineFillCovers rings g r c ↔ gdalFillCovers rings g r c := by
    unfold engineFillCovers gdalFillCovers
    refine and_congr_right fun _ => and_congr_right fun _ =>
      and_congr_right fun _ => and_congr_right fun _ => ?_
    have hsorted := List.sorted_insertionSort (fun a b : ℚ => a ≤ b)
      (crossingsOf rings (scanY g r))
    have hperm := List.perm_insertionSort (fun a b : ℚ => a ≤ b)
      (crossingsOf rings (scanY g r))
    have hlen : (List.insertionSort (fun a b : ℚ => a ≤ b)
        (crossingsOf rings (scanY g r))).length % 2 = 0 := by
      rw [hperm.length_eq]
      exact crossingsOf_length_even rings (scanY g r)
    have hpar := pairSpans_parity
      (List.insertionSort (fun a b : ℚ => a ≤ b)
        (crossingsOf rings (scanY g r)))
      hsorted hlen (g.xmin + ((c : ℚ) + 1) * g.xres)
    have hcnt := List.Perm.countP_eq
      (fun x => decide (x < g.xmin + ((c : ℚ) + 1) * g.xres)) hperm
    constructor
    · rintro ⟨p, hp, hc⟩
      have hodd := hpar.mp
        ⟨p, hp, (span_mem_iff g.xmin g.xres hx p.1 p.2 c).mp hc⟩
      rwa [hcnt] at hodd
    · intro hcount
      obtain ⟨p, hp, hc⟩ := hpar.mpr (by rw [hcnt]; exact hcount)
      exact ⟨p, hp, (span_mem_iff g.xmin g.xres hx p.1 p.2 c).mpr hc⟩
  refine ⟨main, ?_⟩
  unfold engineAllTouchedCovers gdalAllTouchedCovers
  rw [main]

/-- A counterclockwise rectangle from (0,0) to (4,3). -/
def ringStd : List Pt := [(0, 0), (4, 0), (4, 3), (0, 3)]

/-- A four-by-three unit grid over the rectangle. -/
def gridStd : ResolvedGrid :=
  { xmin := 0, ymax := 3, xres := 1, yres := 1, ncols := 4, nrows := 3 }

/-- C1 witness: on the concrete rectangle and grid the fill rules agree
at pixel (1, 2), and that pixel is indeed covered. -/
theorem C1_engine_matches_reference_witness :
    ((engineFillCovers [ringStd] gridStd 1 2 ↔
        gdalFillCovers [ringStd] gridStd 1 2) ∧
      (engineAllTouchedCovers (fun _ _ => False) [ringStd] gridStd 1 2 ↔
        gdalAllTouchedCovers (fun _ _ => False) [ringStd] gridStd 1 2)) ∧
      engineFillCovers [ringStd] gridStd 1 2 := by
  refine ⟨C1_engine_matches_reference [ringStd] gridStd
      (by norm_num [gridStd]) (fun _ _ => False) 1 2, ?_⟩
  have hcross : crossingsOf [ringStd] (scanY gridStd 1) = [4, 0] := by
    norm_num [crossingsOf, recordEdges, ringEdges, edgesFrom, edgeCrossing,
      scanY, gridStd, ringStd, List.filterMap_cons, min_def, max_def]
  unfold engineFillCovers
  rw [hcross]
  refine ⟨by norm_num, by norm_num [gridStd], by norm_num,
    by norm_num [gridStd], ⟨(0, 4), ?_, ?_, ?_⟩⟩
  · norm_num [List.insertionSort, List.orderedInsert, pairSpans]
  · norm_num [gridStd]
  · norm_num [gridStd]
